import Mathlib

/-!
Verification of the `multisig` Anchor program
(`src/programs/multisig/src/lib.rs`).

The program keeps one `ArgentAccount` record per (owner, guardian) pair and
exposes handlers gated on which of the two credentials signed the request.
We embed the record and every handler shallowly:

* `Pubkey` is modelled as `Nat` (an opaque 32-byte identity; only equality
  is ever used by the program).
* `i64` clock readings, timestamps and durations are modelled as `Int`
  (the program performs a single subtraction `now - escape_initiated_at`;
  realistic unix timestamps are far from the i64 boundaries, so mathematical
  integers are faithful).
* The Anchor signer flags `ctx.accounts.owner.is_signer` /
  `ctx.accounts.guardian.is_signer` become explicit boolean parameters
  `owner_signed` / `guardian_signed`, and `Clock::get()?.unix_timestamp`
  becomes an explicit parameter `now`, exactly as the spec directs
  (external clock and signature layers as injectable collaborators).
* Each handler returns `ArgentAccount × Option ErrorCode`: the account
  record as left by the handler body, paired with `some e` when a
  `require!` aborted the call with error `e` and `none` on success.
  Statement order of the Rust body is preserved: every `require!` becomes
  an early return carrying the record state reached at that point, and the
  field writes that follow the checks happen only in the final branch.
-/

/-- Escape direction tag, from `enum EscapeType { None, Guardian, Owner }`. -/
inductive EscapeType where
  | None
  | Guardian
  | Owner
deriving DecidableEq

/-- From `struct PendingTransaction { data, owner_approved, guardian_approved }`. -/
structure PendingTransaction where
  data : List Nat
  owner_approved : Bool
  guardian_approved : Bool
deriving DecidableEq

/-- Account record, from `struct ArgentAccount`. -/
structure ArgentAccount where
  owner : Nat
  guardian : Nat
  guardian_backup : Option Nat
  escape_type : EscapeType
  escape_initiated_at : Int
  security_period : Int
  pending_tx : Option PendingTransaction
deriving DecidableEq

/-- From `enum ErrorCode`. -/
inductive ErrorCode where
  | NotEnoughApprovals
  | InvalidOwner
  | InvalidGuardian
  | InvalidSignature
  | EscapeGuardianInProgress
  | InvalidEscapeType
  | SecurityPeriodNotElapsed
  | NoEscapeInProgress
deriving DecidableEq

/-- Result of one handler call: the record as left by the handler, and the
error of the `require!` that aborted it, if any. -/
abbrev HandlerResult := ArgentAccount × Option ErrorCode

/-- `create(owner, guardian, security_period)`: initializes every field;
`security_period.unwrap_or(604800)`. `create` has no failure path in the
handler body. -/
def create (owner guardian : Nat) (security_period : Option Int) : ArgentAccount :=
  { owner := owner
    guardian := guardian
    guardian_backup := none
    escape_type := EscapeType.None
    escape_initiated_at := 0
    security_period := security_period.getD 604800
    pending_tx := none }

/-- `execute(data)`: requires both signers, then stages
`pending_tx = Some { data, owner_approved: true, guardian_approved: true }`. -/
def execute (a : ArgentAccount) (owner_signed guardian_signed : Bool)
    (data : List Nat) : HandlerResult :=
  if !(owner_signed && guardian_signed) then
    (a, some ErrorCode.NotEnoughApprovals)
  else
    ({ a with pending_tx := some ⟨data, true, true⟩ }, none)

/-- `change_owner(new_owner, new_owner_signature)`: requires both signers,
then requires `new_owner_signature != [0; 64]`, then sets `owner`. -/
def change_owner (a : ArgentAccount) (owner_signed guardian_signed : Bool)
    (new_owner : Nat) (new_owner_signature : List Nat) : HandlerResult :=
  if !(owner_signed && guardian_signed) then
    (a, some ErrorCode.NotEnoughApprovals)
  else if new_owner_signature = List.replicate 64 0 then
    (a, some ErrorCode.InvalidSignature)
  else
    ({ a with owner := new_owner }, none)

/-- `change_guardian(new_guardian)`: requires both signers, sets `guardian`. -/
def change_guardian (a : ArgentAccount) (owner_signed guardian_signed : Bool)
    (new_guardian : Nat) : HandlerResult :=
  if !(owner_signed && guardian_signed) then
    (a, some ErrorCode.NotEnoughApprovals)
  else
    ({ a with guardian := new_guardian }, none)

/-- `change_guardian_backup(new_guardian_backup)`: requires both signers,
sets `guardian_backup`. -/
def change_guardian_backup (a : ArgentAccount) (owner_signed guardian_signed : Bool)
    (new_guardian_backup : Option Nat) : HandlerResult :=
  if !(owner_signed && guardian_signed) then
    (a, some ErrorCode.NotEnoughApprovals)
  else
    ({ a with guardian_backup := new_guardian_backup }, none)

/-- `trigger_escape_guardian()`: requires the owner signature only; a prior
`Owner` escape is silently overridden (the `if` in the source only logs);
sets `escape_type = Guardian` and `escape_initiated_at = now`. -/
def trigger_escape_guardian (a : ArgentAccount) (owner_signed : Bool)
    (now : Int) : HandlerResult :=
  if !owner_signed then
    (a, some ErrorCode.NotEnoughApprovals)
  else
    ({ a with escape_type := EscapeType.Guardian, escape_initiated_at := now }, none)

/-- `trigger_escape_owner()`: requires the guardian signature only; fails
with `EscapeGuardianInProgress` when `escape_type == Guardian`; otherwise
sets `escape_type = Owner` and `escape_initiated_at = now`. -/
def trigger_escape_owner (a : ArgentAccount) (guardian_signed : Bool)
    (now : Int) : HandlerResult :=
  if !guardian_signed then
    (a, some ErrorCode.NotEnoughApprovals)
  else if a.escape_type = EscapeType.Guardian then
    (a, some ErrorCode.EscapeGuardianInProgress)
  else
    ({ a with escape_type := EscapeType.Owner, escape_initiated_at := now }, none)

/-- `escape_guardian(new_guardian)`: requires the owner signature only, then
`escape_type == Guardian`, then `now - escape_initiated_at >= security_period`;
on success replaces the guardian and resets the escape state. -/
def escape_guardian (a : ArgentAccount) (owner_signed : Bool)
    (now : Int) (new_guardian : Nat) : HandlerResult :=
  if !owner_signed then
    (a, some ErrorCode.NotEnoughApprovals)
  else if !(a.escape_type = EscapeType.Guardian) then
    (a, some ErrorCode.InvalidEscapeType)
  else if !(now - a.escape_initiated_at ≥ a.security_period) then
    (a, some ErrorCode.SecurityPeriodNotElapsed)
  else
    ({ a with guardian := new_guardian,
              escape_type := EscapeType.None,
              escape_initiated_at := 0 }, none)

/-- `escape_owner(new_owner)`: requires the guardian signature only, then
`escape_type == Owner`, then `now - escape_initiated_at >= security_period`;
on success replaces the owner and resets the escape state. -/
def escape_owner (a : ArgentAccount) (guardian_signed : Bool)
    (now : Int) (new_owner : Nat) : HandlerResult :=
  if !guardian_signed then
    (a, some ErrorCode.NotEnoughApprovals)
  else if !(a.escape_type = EscapeType.Owner) then
    (a, some ErrorCode.InvalidEscapeType)
  else if !(now - a.escape_initiated_at ≥ a.security_period) then
    (a, some ErrorCode.SecurityPeriodNotElapsed)
  else
    ({ a with owner := new_owner,
              escape_type := EscapeType.None,
              escape_initiated_at := 0 }, none)

/-- `cancel_escape()`: requires both signers, then `escape_type != None`;
on success resets the escape state. -/
def cancel_escape (a : ArgentAccount) (owner_signed guardian_signed : Bool) :
    HandlerResult :=
  if !(owner_signed && guardian_signed) then
    (a, some ErrorCode.NotEnoughApprovals)
  else if a.escape_type = EscapeType.None then
    (a, some ErrorCode.NoEscapeInProgress)
  else
    ({ a with escape_type := EscapeType.None, escape_initiated_at := 0 }, none)

/-- `upgrade()`: requires both signers; on success delegates to the external
BPF loader via CPI and never touches the account record. The CPI itself is
outside this core (external program-replacement facility). -/
def upgrade (a : ArgentAccount) (owner_signed guardian_signed : Bool) :
    HandlerResult :=
  if !(owner_signed && guardian_signed) then
    (a, some ErrorCode.NotEnoughApprovals)
  else
    (a, none)

/-- Reachable record states: anything obtainable from `create` by a sequence
of handler calls, with arbitrary signer flags, clock readings and arguments.
A failed call leaves the record as the handler left it (first component),
which for this program is the unmodified input. -/
inductive Reachable : ArgentAccount → Prop where
  | created (o g : Nat) (sp : Option Int) : Reachable (create o g sp)
  | step_execute {a : ArgentAccount} (os gs : Bool) (d : List Nat) :
      Reachable a → Reachable (execute a os gs d).1
  | step_change_owner {a : ArgentAccount} (os gs : Bool) (no : Nat) (sig : List Nat) :
      Reachable a → Reachable (change_owner a os gs no sig).1
  | step_change_guardian {a : ArgentAccount} (os gs : Bool) (ng : Nat) :
      Reachable a → Reachable (change_guardian a os gs ng).1
  | step_change_guardian_backup {a : ArgentAccount} (os gs : Bool) (nb : Option Nat) :
      Reachable a → Reachable (change_guardian_backup a os gs nb).1
  | step_trigger_escape_guardian {a : ArgentAccount} (os : Bool) (now : Int) :
      Reachable a → Reachable (trigger_escape_guardian a os now).1
  | step_trigger_escape_owner {a : ArgentAccount} (gs : Bool) (now : Int) :
      Reachable a → Reachable (trigger_escape_owner a gs now).1
  | step_escape_guardian {a : ArgentAccount} (os : Bool) (now : Int) (ng : Nat) :
      Reachable a → Reachable (escape_guardian a os now ng).1
  | step_escape_owner {a : ArgentAccount} (gs : Bool) (now : Int) (no : Nat) :
      Reachable a → Reachable (escape_owner a gs now no).1
  | step_cancel_escape {a : ArgentAccount} (os gs : Bool) :
      Reachable a → Reachable (cancel_escape a os gs).1
  | step_upgrade {a : ArgentAccount} (os gs : Bool) :
      Reachable a → Reachable (upgrade a os gs).1

/-- Reachability restricted to executions in which every clock reading
passed to a trigger operation is nonzero (real unix time is never `0`). -/
inductive ReachableNZ : ArgentAccount → Prop where
  | created (o g : Nat) (sp : Option Int) : ReachableNZ (create o g sp)
  | step_execute {a : ArgentAccount} (os gs : Bool) (d : List Nat) :
      ReachableNZ a → ReachableNZ (execute a os gs d).1
  | step_change_owner {a : ArgentAccount} (os gs : Bool) (no : Nat) (sig : List Nat) :
      ReachableNZ a → ReachableNZ (change_owner a os gs no sig).1
  | step_change_guardian {a : ArgentAccount} (os gs : Bool) (ng : Nat) :
      ReachableNZ a → ReachableNZ (change_guardian a os gs ng).1
  | step_change_guardian_backup {a : ArgentAccount} (os gs : Bool) (nb : Option Nat) :
      ReachableNZ a → ReachableNZ (change_guardian_backup a os gs nb).1
  | step_trigger_escape_guardian {a : ArgentAccount} (os : Bool) {now : Int} :
      now ≠ 0 → ReachableNZ a → ReachableNZ (trigger_escape_guardian a os now).1
  | step_trigger_escape_owner {a : ArgentAccount} (gs : Bool) {now : Int} :
      now ≠ 0 → ReachableNZ a → ReachableNZ (trigger_escape_owner a gs now).1
  | step_escape_guardian {a : ArgentAccount} (os : Bool) (now : Int) (ng : Nat) :
      ReachableNZ a → ReachableNZ (escape_guardian a os now ng).1
  | step_escape_owner {a : ArgentAccount} (gs : Bool) (now : Int) (no : Nat) :
      ReachableNZ a → ReachableNZ (escape_owner a gs now no).1
  | step_cancel_escape {a : ArgentAccount} (os gs : Bool) :
      ReachableNZ a → ReachableNZ (cancel_escape a os gs).1
  | step_upgrade {a : ArgentAccount} (os gs : Bool) :
      ReachableNZ a → ReachableNZ (upgrade a os gs).1


/-- C9: a freshly created record has `guardian_backup = None`,
`escape_type = None`, `escape_initiated_at = 0`, `pending_tx = None`, with
`owner` and `guardian` equal to the arguments of `create` (so the escape
invariant holds in the initial state). -/
theorem C9_create_initial_state (o g : Nat) (sp : Option Int) :
    (create o g sp).owner = o ∧
    (create o g sp).guardian = g ∧
    (create o g sp).guardian_backup = none ∧
    (create o g sp).escape_type = EscapeType.None ∧
    (create o g sp).escape_initiated_at = 0 ∧
    (create o g sp).pending_tx = none := by
  simp [create]

/-- C6 counterexample: `create` performs no positivity check on the provided
`security_period`; with `security_period = Some 0` the stored value is `0`,
not strictly greater than `0`. -/
theorem C6_counterexample :
    (create 1 2 (some 0)).security_period = 0 ∧
    ¬ (0 < (create 1 2 (some 0)).security_period) := by
  decide

/-- C6 (amended): after `create`, `security_period` equals the provided
value when one is given and `604800` when none is given; the stored value
is strictly positive whenever the provided value is strictly positive, and
always when no value is provided — no validation in `create` enforces
positivity of a provided value. -/
theorem C6_security_period (o g : Nat) (v : Int) :
    (create o g (some v)).security_period = v ∧
    (create o g none).security_period = 604800 ∧
    (0 < v → 0 < (create o g (some v)).security_period) ∧
    0 < (create o g none).security_period := by
  refine ⟨rfl, rfl, fun hv => ?_, by norm_num [create]⟩
  simpa [create] using hv

/-- C6 witness: instantiation of the amended claim at a concrete input. -/
theorem C6_security_period_witness :
    (create 1 2 (some 3)).security_period = 3 ∧
    0 < (create 1 2 (some 3)).security_period :=
  ⟨(C6_security_period 1 2 3).1, (C6_security_period 1 2 3).2.2.1 (by decide)⟩

/-- C4: each of `change_owner`, `change_guardian`, `change_guardian_backup`,
`execute`, `cancel_escape` and `upgrade` fails with `NotEnoughApprovals`
(leaving the record unchanged) for every signer combination other than both
present. -/
theorem C4_dual_gate (a : ArgentAccount) (os gs : Bool) (no ng : Nat)
    (sig : List Nat) (nb : Option Nat) (d : List Nat)
    (h : ¬ (os = true ∧ gs = true)) :
    change_owner a os gs no sig = (a, some ErrorCode.NotEnoughApprovals) ∧
    change_guardian a os gs ng = (a, some ErrorCode.NotEnoughApprovals) ∧
    change_guardian_backup a os gs nb = (a, some ErrorCode.NotEnoughApprovals) ∧
    execute a os gs d = (a, some ErrorCode.NotEnoughApprovals) ∧
    cancel_escape a os gs = (a, some ErrorCode.NotEnoughApprovals) ∧
    upgrade a os gs = (a, some ErrorCode.NotEnoughApprovals) := by
  cases os <;> cases gs <;>
    simp_all [change_owner, change_guardian, change_guardian_backup, execute,
      cancel_escape, upgrade]

/-- C4 witness: the dual gate at a concrete record with only the owner
signed. -/
theorem C4_dual_gate_witness :
    change_owner (create 1 2 none) true false 3 (List.replicate 64 1) =
      (create 1 2 none, some ErrorCode.NotEnoughApprovals) ∧
    change_guardian (create 1 2 none) true false 3 =
      (create 1 2 none, some ErrorCode.NotEnoughApprovals) ∧
    change_guardian_backup (create 1 2 none) true false (some 3) =
      (create 1 2 none, some ErrorCode.NotEnoughApprovals) ∧
    execute (create 1 2 none) true false [7] =
      (create 1 2 none, some ErrorCode.NotEnoughApprovals) ∧
    cancel_escape (create 1 2 none) true false =
      (create 1 2 none, some ErrorCode.NotEnoughApprovals) ∧
    upgrade (create 1 2 none) true false =
      (create 1 2 none, some ErrorCode.NotEnoughApprovals) :=
  C4_dual_gate (create 1 2 none) true false 3 3 (List.replicate 64 1) (some 3) [7]
    (by decide)

/-- C2: priority asymmetry. With `escape_type = Owner` and the owner signed,
`trigger_escape_guardian` succeeds, setting `escape_type = Guardian` and
`escape_initiated_at = now`; with `escape_type = Guardian` and the guardian
signed, `trigger_escape_owner` fails with `EscapeGuardianInProgress`, record
unchanged. -/
theorem C2_priority_asymmetry (a b : ArgentAccount) (now t : Int)
    (_ha : a.escape_type = EscapeType.Owner)
    (hb : b.escape_type = EscapeType.Guardian) :
    trigger_escape_guardian a true now =
      ({ a with escape_type := EscapeType.Guardian, escape_initiated_at := now },
        none) ∧
    trigger_escape_owner b true t =
      (b, some ErrorCode.EscapeGuardianInProgress) := by
  constructor
  · simp [trigger_escape_guardian]
  · simp [trigger_escape_owner, hb]

/-- C2 witness: both halves of the asymmetry at concrete records. -/
theorem C2_priority_asymmetry_witness :
    trigger_escape_guardian ⟨1, 2, none, EscapeType.Owner, 5, 604800, none⟩ true 9 =
      (⟨1, 2, none, EscapeType.Guardian, 9, 604800, none⟩, none) ∧
    trigger_escape_owner ⟨1, 2, none, EscapeType.Guardian, 5, 604800, none⟩ true 9 =
      (⟨1, 2, none, EscapeType.Guardian, 5, 604800, none⟩,
        some ErrorCode.EscapeGuardianInProgress) :=
  C2_priority_asymmetry ⟨1, 2, none, EscapeType.Owner, 5, 604800, none⟩
    ⟨1, 2, none, EscapeType.Guardian, 5, 604800, none⟩ 9 9 rfl rfl

/-- C10: a permitted trigger stores the clock reading verbatim, for every
clock value `t` including `0` and negative values — `trigger_escape_guardian`
with the owner signed always succeeds, and `trigger_escape_owner` with the
guardian signed succeeds whenever `escape_type ≠ Guardian`, both writing
`escape_initiated_at = t`. -/
theorem C10_trigger_stores_clock_verbatim (a : ArgentAccount) (t : Int) :
    trigger_escape_guardian a true t =
      ({ a with escape_type := EscapeType.Guardian, escape_initiated_at := t },
        none) ∧
    (a.escape_type ≠ EscapeType.Guardian →
      trigger_escape_owner a true t =
        ({ a with escape_type := EscapeType.Owner, escape_initiated_at := t },
          none)) := by
  constructor
  · simp [trigger_escape_guardian]
  · intro h
    simp [trigger_escape_owner, h]

/-- C10 witness: triggers at clock readings `0` and `-3` store them
verbatim. -/
theorem C10_trigger_stores_clock_verbatim_witness :
    trigger_escape_guardian (create 1 2 none) true 0 =
      (⟨1, 2, none, EscapeType.Guardian, 0, 604800, none⟩, none) ∧
    trigger_escape_owner (create 1 2 none) true (-3) =
      (⟨1, 2, none, EscapeType.Owner, -3, 604800, none⟩, none) :=
  ⟨(C10_trigger_stores_clock_verbatim (create 1 2 none) 0).1,
    (C10_trigger_stores_clock_verbatim (create 1 2 none) (-3)).2 (by decide)⟩

/-- C3: time lock. With the matching escape direction active and the
required single signer present, `escape_guardian` / `escape_owner` fail with
`SecurityPeriodNotElapsed` (record unchanged) whenever
`now - escape_initiated_at < security_period`, and succeed at
`now - escape_initiated_at = security_period` exactly, replacing the
corresponding identity and resetting the escape state. -/
theorem C3_time_lock (a : ArgentAccount) (now : Int) (ng no : Nat) :
    (a.escape_type = EscapeType.Guardian →
      (now - a.escape_initiated_at < a.security_period →
        escape_guardian a true now ng =
          (a, some ErrorCode.SecurityPeriodNotElapsed)) ∧
      (now - a.escape_initiated_at = a.security_period →
        escape_guardian a true now ng =
          ({ a with guardian := ng, escape_type := EscapeType.None,
                    escape_initiated_at := 0 }, none))) ∧
    (a.escape_type = EscapeType.Owner →
      (now - a.escape_initiated_at < a.security_period →
        escape_owner a true now no =
          (a, some ErrorCode.SecurityPeriodNotElapsed)) ∧
      (now - a.escape_initiated_at = a.security_period →
        escape_owner a true now no =
          ({ a with owner := no, escape_type := EscapeType.None,
                    escape_initiated_at := 0 }, none))) := by
  refine ⟨fun h => ⟨fun hlt => ?_, fun heq => ?_⟩,
          fun h => ⟨fun hlt => ?_, fun heq => ?_⟩⟩ <;>
    simp [escape_guardian, escape_owner, h] <;> omega

/-- C3 witness: the strict-inequality failure and the exact-boundary success
for both escape directions, at concrete records with `security_period =
604800` and `escape_initiated_at = 100`. -/
theorem C3_time_lock_witness :
    escape_guardian ⟨1, 2, none, EscapeType.Guardian, 100, 604800, none⟩ true
        604899 7 =
      (⟨1, 2, none, EscapeType.Guardian, 100, 604800, none⟩,
        some ErrorCode.SecurityPeriodNotElapsed) ∧
    escape_guardian ⟨1, 2, none, EscapeType.Guardian, 100, 604800, none⟩ true
        604900 7 =
      (⟨1, 7, none, EscapeType.None, 0, 604800, none⟩, none) ∧
    escape_owner ⟨1, 2, none, EscapeType.Owner, 100, 604800, none⟩ true
        604899 9 =
      (⟨1, 2, none, EscapeType.Owner, 100, 604800, none⟩,
        some ErrorCode.SecurityPeriodNotElapsed) ∧
    escape_owner ⟨1, 2, none, EscapeType.Owner, 100, 604800, none⟩ true
        604900 9 =
      (⟨9, 2, none, EscapeType.None, 0, 604800, none⟩, none) :=
  ⟨((C3_time_lock ⟨1, 2, none, EscapeType.Guardian, 100, 604800, none⟩ 604899 7 9).1
      rfl).1 (by decide),
   ((C3_time_lock ⟨1, 2, none, EscapeType.Guardian, 100, 604800, none⟩ 604900 7 9).1
      rfl).2 (by decide),
   ((C3_time_lock ⟨1, 2, none, EscapeType.Owner, 100, 604800, none⟩ 604899 7 9).2
      rfl).1 (by decide),
   ((C3_time_lock ⟨1, 2, none, EscapeType.Owner, 100, 604800, none⟩ 604900 7 9).2
      rfl).2 (by decide)⟩

/-- C7: with both signers present, `change_owner` fails with
`InvalidSignature` (record unchanged) exactly when `new_owner_signature` is
the all-zero 64-byte array, and otherwise succeeds, setting only `owner` and
leaving every other field — including the escape state — unchanged. -/
theorem C7_change_owner_signature (a : ArgentAccount) (no : Nat)
    (sig : List Nat) (_hlen : sig.length = 64) :
    (sig = List.replicate 64 0 →
      change_owner a true true no sig = (a, some ErrorCode.InvalidSignature)) ∧
    (sig ≠ List.replicate 64 0 →
      change_owner a true true no sig = ({ a with owner := no }, none)) := by
  constructor
  · intro h
    unfold change_owner
    rw [if_neg (by decide), if_pos h]
  · intro h
    unfold change_owner
    rw [if_neg (by decide), if_neg h]

/-- C7 witness: the zero signature is rejected and a nonzero one accepted at
a concrete record. -/
theorem C7_change_owner_signature_witness :
    change_owner (create 1 2 none) true true 3 (List.replicate 64 0) =
      (create 1 2 none, some ErrorCode.InvalidSignature) ∧
    change_owner (create 1 2 none) true true 3 (List.replicate 64 5) =
      (⟨3, 2, none, EscapeType.None, 0, 604800, none⟩, none) :=
  ⟨(C7_change_owner_signature (create 1 2 none) 3 (List.replicate 64 0)
      (by decide)).1 rfl,
   (C7_change_owner_signature (create 1 2 none) 3 (List.replicate 64 5)
      (by decide)).2 (by decide)⟩

/-- C8: `cancel_escape` with exactly one signer fails with
`NotEnoughApprovals`; with both signers and `escape_type = None` it fails
with `NoEscapeInProgress`; with both signers and an active escape it
succeeds, resetting `escape_type` and `escape_initiated_at` and leaving
`owner`, `guardian`, `guardian_backup`, `security_period` and `pending_tx`
unchanged. -/
theorem C8_cancel_escape_scenarios (a : ArgentAccount) :
    cancel_escape a true false = (a, some ErrorCode.NotEnoughApprovals) ∧
    cancel_escape a false true = (a, some ErrorCode.NotEnoughApprovals) ∧
    (a.escape_type = EscapeType.None →
      cancel_escape a true true = (a, some ErrorCode.NoEscapeInProgress)) ∧
    (a.escape_type ≠ EscapeType.None →
      cancel_escape a true true =
        ({ a with escape_type := EscapeType.None, escape_initiated_at := 0 },
          none)) := by
  refine ⟨by simp [cancel_escape], by simp [cancel_escape],
          fun h => ?_, fun h => ?_⟩
  · simp [cancel_escape, h]
  · simp [cancel_escape, h]

/-- C8 witness: all three scenarios at concrete records (state `Guardian`
for the success case). -/
theorem C8_cancel_escape_scenarios_witness :
    cancel_escape ⟨1, 2, none, EscapeType.Guardian, 5, 604800, none⟩ true false =
      (⟨1, 2, none, EscapeType.Guardian, 5, 604800, none⟩,
        some ErrorCode.NotEnoughApprovals) ∧
    cancel_escape (create 1 2 none) true true =
      (create 1 2 none, some ErrorCode.NoEscapeInProgress) ∧
    cancel_escape ⟨1, 2, none, EscapeType.Guardian, 5, 604800, none⟩ true true =
      (⟨1, 2, none, EscapeType.None, 0, 604800, none⟩, none) :=
  ⟨(C8_cancel_escape_scenarios
      ⟨1, 2, none, EscapeType.Guardian, 5, 604800, none⟩).1,
   (C8_cancel_escape_scenarios (create 1 2 none)).2.2.1 rfl,
   (C8_cancel_escape_scenarios
      ⟨1, 2, none, EscapeType.Guardian, 5, 604800, none⟩).2.2.2 (by decide)⟩

/-- C5: every handler that returns an error leaves the account record
exactly as it was — in each Rust handler every `require!` precedes every
field write, so the record reached at any failure point is the input
record. -/
theorem C5_error_leaves_record_unchanged (a : ArgentAccount) (os gs : Bool)
    (d sig : List Nat) (no ng : Nat) (nb : Option Nat) (now : Int)
    (e : ErrorCode) :
    ((execute a os gs d).2 = some e → (execute a os gs d).1 = a) ∧
    ((change_owner a os gs no sig).2 = some e →
      (change_owner a os gs no sig).1 = a) ∧
    ((change_guardian a os gs ng).2 = some e →
      (change_guardian a os gs ng).1 = a) ∧
    ((change_guardian_backup a os gs nb).2 = some e →
      (change_guardian_backup a os gs nb).1 = a) ∧
    ((trigger_escape_guardian a os now).2 = some e →
      (trigger_escape_guardian a os now).1 = a) ∧
    ((trigger_escape_owner a gs now).2 = some e →
      (trigger_escape_owner a gs now).1 = a) ∧
    ((escape_guardian a os now ng).2 = some e →
      (escape_guardian a os now ng).1 = a) ∧
    ((escape_owner a gs now no).2 = some e → (escape_owner a gs now no).1 = a) ∧
    ((cancel_escape a os gs).2 = some e → (cancel_escape a os gs).1 = a) ∧
    ((upgrade a os gs).2 = some e → (upgrade a os gs).1 = a) := by
  refine ⟨?_, ?_, ?_, ?_, ?_, ?_, ?_, ?_, ?_, ?_⟩ <;>
    · intro h
      simp only [execute, change_owner, change_guardian, change_guardian_backup,
        trigger_escape_guardian, trigger_escape_owner, escape_guardian,
        escape_owner, cancel_escape, upgrade] at h ⊢
      repeat' split at h <;> simp_all

/-- C5 witness: with neither signer present, all ten handlers fail and all
return the input record unchanged. -/
theorem C5_error_leaves_record_unchanged_witness :
    (execute (create 1 2 none) false false [7]).1 = create 1 2 none ∧
    (change_owner (create 1 2 none) false false 3 (List.replicate 64 1)).1 =
      create 1 2 none ∧
    (change_guardian (create 1 2 none) false false 3).1 = create 1 2 none ∧
    (change_guardian_backup (create 1 2 none) false false (some 3)).1 =
      create 1 2 none ∧
    (trigger_escape_guardian (create 1 2 none) false 9).1 = create 1 2 none ∧
    (trigger_escape_owner (create 1 2 none) false 9).1 = create 1 2 none ∧
    (escape_guardian (create 1 2 none) false 9 3).1 = create 1 2 none ∧
    (escape_owner (create 1 2 none) false 9 3).1 = create 1 2 none ∧
    (cancel_escape (create 1 2 none) false false).1 = create 1 2 none ∧
    (upgrade (create 1 2 none) false false).1 = create 1 2 none := by
  have h := C5_error_leaves_record_unchanged (create 1 2 none) false false
    [7] (List.replicate 64 1) 3 3 (some 3) 9 ErrorCode.NotEnoughApprovals
  exact ⟨h.1 (by decide), h.2.1 (by decide), h.2.2.1 (by decide),
    h.2.2.2.1 (by decide), h.2.2.2.2.1 (by decide), h.2.2.2.2.2.1 (by decide),
    h.2.2.2.2.2.2.1 (by decide), h.2.2.2.2.2.2.2.1 (by decide),
    h.2.2.2.2.2.2.2.2.1 (by decide), h.2.2.2.2.2.2.2.2.2 (by decide)⟩

/-- C1 counterexample: the escape invariant fails on a reachable state —
`trigger_escape_guardian` at clock reading `0` (permitted, nothing excludes
`t = 0`) yields a reachable record with `escape_type = Guardian` and
`escape_initiated_at = 0`. -/
theorem C1_counterexample :
    ¬ (∀ s : ArgentAccount, Reachable s →
        (s.escape_type = EscapeType.None ↔ s.escape_initiated_at = 0)) := by
  intro h
  have hr : Reachable (trigger_escape_guardian (create 1 2 none) true 0).1 :=
    Reachable.step_trigger_escape_guardian true 0 (Reachable.created 1 2 none)
  have hiff := h _ hr
  simp [trigger_escape_guardian, create] at hiff

/-- C1 (amended): on every state reachable by executions in which each
clock reading passed to a trigger operation is nonzero,
`escape_type = None ↔ escape_initiated_at = 0`. -/
theorem C1_escape_invariant (s : ArgentAccount) (h : ReachableNZ s) :
    s.escape_type = EscapeType.None ↔ s.escape_initiated_at = 0 := by
  induction h with
  | created o g sp => simp [create]
  | step_execute os gs d hr ih =>
      unfold execute
      split <;> simp_all
  | step_change_owner os gs no sig hr ih =>
      unfold change_owner
      split <;> [simp_all; skip]
      split <;> simp_all
  | step_change_guardian os gs ng hr ih =>
      unfold change_guardian
      split <;> simp_all
  | step_change_guardian_backup os gs nb hr ih =>
      unfold change_guardian_backup
      split <;> simp_all
  | step_trigger_escape_guardian os hnz hr ih =>
      unfold trigger_escape_guardian
      split <;> simp_all
  | step_trigger_escape_owner gs hnz hr ih =>
      unfold trigger_escape_owner
      split <;> [simp_all; skip]
      split <;> simp_all
  | step_escape_guardian os now ng hr ih =>
      unfold escape_guardian
      split <;> [simp_all; skip]
      split <;> [simp_all; skip]
      split <;> simp_all
  | step_escape_owner gs now no hr ih =>
      unfold escape_owner
      split <;> [simp_all; skip]
      split <;> [simp_all; skip]
      split <;> simp_all
  | step_cancel_escape os gs hr ih =>
      unfold cancel_escape
      split <;> [simp_all; skip]
      split <;> simp_all
  | step_upgrade os gs hr ih =>
      unfold upgrade
      split <;> simp_all

/-- C1 witness: the amended invariant at a concrete reachable state, one
trigger (at a nonzero clock) after creation. -/
theorem C1_escape_invariant_witness :
    (trigger_escape_guardian (create 1 2 none) true 5).1.escape_type =
        EscapeType.None ↔
      (trigger_escape_guardian (create 1 2 none) true 5).1.escape_initiated_at
        = 0 :=
  C1_escape_invariant (trigger_escape_guardian (create 1 2 none) true 5).1
    (ReachableNZ.step_trigger_escape_guardian true (by decide)
      (ReachableNZ.created 1 2 none))
